import Mathlib

/-!
Verification of the volume-calculator program (src/volume-calculator.c).

The program computes the volume of a polyhedron from its vertex array and
triangulated face list via the divergence theorem: a sum of signed
tetrahedron volumes, one per triangular face, with the vertex array's
first element as the shared reference point.

The embedding models the C `double` arithmetic by exact rational
arithmetic (ℚ): every arithmetic operation of the source appears here in
the same expression structure, evaluated exactly.

Source functions embedded:
  - `tetrahedron_volume`      (volume-calculator.c lines 22-42)
  - `calculate_volume`        (volume-calculator.c lines 58-75)
  - `calculate_volume_qfhexahedron` (lines 93-117)
-/

/-- A 3D vector, mirroring the C `vector3d` (a triple of doubles),
with coordinates modelled as exact rationals. -/
structure Vec3 where
  x : ℚ
  y : ℚ
  z : ℚ
deriving DecidableEq, Repr

/-- The zero vector, the value a `vector3d` holds after `memset(..., 0, ...)`. -/
def zeroVec : Vec3 := ⟨0, 0, 0⟩

/-- Embedding of `tetrahedron_volume` (lines 22-42): translate so that the
fourth point is at the origin, then the scalar triple product of the
translated first three points, divided by 6, in the exact expression
structure of the C source. -/
def tetrahedron_volume (p0 p1 p2 p3 : Vec3) : ℚ :=
  let ax := p0.x - p3.x
  let ay := p0.y - p3.y
  let az := p0.z - p3.z
  let bx := p1.x - p3.x
  let b_y := p1.y - p3.y
  let bz := p1.z - p3.z
  let cx := p2.x - p3.x
  let cy := p2.y - p3.y
  let cz := p2.z - p3.z
  (ax * (b_y * cz - bz * cy)
   + ay * (bz * cx - bx * cz)
   + az * (bx * cy - b_y * cx)) / 6

/-- The contribution of face number `i` inside the loop of
`calculate_volume` (lines 65-73): the tetrahedron scratch buffer is filled
with the vertices indexed by `vector_indices[i*3]`, `vector_indices[i*3+1]`,
`vector_indices[i*3+2]`, and `vectors[0]`, and `tetrahedron_volume` is
applied to it. Out-of-range reads are modelled by a default value. -/
def face_term (vectors : List Vec3) (vector_indices : List ℕ) (i : ℕ) : ℚ :=
  tetrahedron_volume
    (vectors.getD (vector_indices.getD (i * 3) 0) zeroVec)
    (vectors.getD (vector_indices.getD (i * 3 + 1) 0) zeroVec)
    (vectors.getD (vector_indices.getD (i * 3 + 2) 0) zeroVec)
    (vectors.getD 0 zeroVec)

/-- Embedding of `calculate_volume` (lines 58-75): `volume` starts at 0 and
the loop `for (i = 0; i < num_trfaces; i++)` adds the tetrahedron volume of
each face. The `num_vertices` parameter is kept because the C function
takes it (it is never read by the body). -/
def calculate_volume (num_vertices : ℕ) (vectors : List Vec3)
    (num_trfaces : ℕ) (vector_indices : List ℕ) : ℚ :=
  (List.range num_trfaces).foldl
    (fun volume i => volume + face_term vectors vector_indices i) 0

/-- The fixed 12-triangle face table of `calculate_volume_qfhexahedron`
(lines 98-111). -/
def qfhexahedron_indices : List ℕ :=
  [0, 2, 1,
   0, 3, 2,
   4, 5, 6,
   4, 6, 7,
   0, 5, 4,
   0, 1, 5,
   1, 6, 5,
   1, 2, 6,
   3, 6, 2,
   3, 7, 6,
   0, 7, 3,
   0, 4, 7]

/-- Embedding of `calculate_volume_qfhexahedron` (lines 93-117): volume of a
quadrilaterally-faced hexahedron via the fixed face table. -/
def calculate_volume_qfhexahedron (vertices : List Vec3) : ℚ :=
  calculate_volume 8 vertices 12 qfhexahedron_indices

/-- Component-wise vector addition (used to state translation invariance). -/
def Vec3.add (p t : Vec3) : Vec3 := ⟨p.x + t.x, p.y + t.y, p.z + t.z⟩

/-- Component-wise vector subtraction, following the spec's words
(section 4.1: component-wise vector subtraction). -/
def Vec3.sub (p q : Vec3) : Vec3 := ⟨p.x - q.x, p.y - q.y, p.z - q.z⟩

/-- Cross product of two vectors, following the spec's words. -/
def Vec3.cross (a b : Vec3) : Vec3 :=
  ⟨a.y * b.z - a.z * b.y, a.z * b.x - a.x * b.z, a.x * b.y - a.y * b.x⟩

/-- Dot product of two vectors, following the spec's words. -/
def Vec3.dot (a b : Vec3) : ℚ := a.x * b.x + a.y * b.y + a.z * b.z

/-- Specification-level tetrahedron volume, written from the spec's words
of section 4.1: translate so `p3` is the origin, then the scalar triple
product `a . (b x c)` divided by 6. -/
def tetrahedron_volume_spec (p0 p1 p2 p3 : Vec3) : ℚ :=
  ((p0.sub p3).dot ((p1.sub p3).cross (p2.sub p3))) / 6

/-- Specification-level polyhedron volume, written from the spec's words of
section 4.2 and claim C1: start a total at 0 and, for each face `(i, j, k)`
in list order, add `tetrahedron_volume` of `vertices[i]`, `vertices[j]`,
`vertices[k]`, and `vertices[0]`. -/
def spec_volume (vertices : List Vec3) (faces : List (ℕ × ℕ × ℕ)) : ℚ :=
  (faces.map (fun f =>
    tetrahedron_volume
      (vertices.getD f.1 zeroVec)
      (vertices.getD f.2.1 zeroVec)
      (vertices.getD f.2.2 zeroVec)
      (vertices.getD 0 zeroVec))).sum

/-- Flattening of a list of face triples into the flat index array that the
C function consumes. -/
def flattenFaces : List (ℕ × ℕ × ℕ) → List ℕ
  | [] => []
  | (i, j, k) :: rest => i :: j :: k :: flattenFaces rest

/-- Unfolding equation for `tetrahedron_volume` with the lets expanded. -/
theorem tetrahedron_volume_eq (p0 p1 p2 p3 : Vec3) :
    tetrahedron_volume p0 p1 p2 p3 =
      ((p0.x - p3.x) * ((p1.y - p3.y) * (p2.z - p3.z) - (p1.z - p3.z) * (p2.y - p3.y))
       + (p0.y - p3.y) * ((p1.z - p3.z) * (p2.x - p3.x) - (p1.x - p3.x) * (p2.z - p3.z))
       + (p0.z - p3.z) * ((p1.x - p3.x) * (p2.y - p3.y) - (p1.y - p3.y) * (p2.x - p3.x))) / 6 :=
  rfl

/-- A fold of successive additions equals the starting value plus the sum
of the mapped list. -/
theorem foldl_add_eq_sum (g : ℕ → ℚ) :
    ∀ (l : List ℕ) (a : ℚ), l.foldl (fun v i => v + g i) a = a + (l.map g).sum := by
  intro l
  induction l with
  | nil => intro a; simp
  | cons x xs ih => intro a; simp [ih, add_assoc]

/-- Reading three positions past three cons cells. -/
theorem getD_cons_three (a b c : ℕ) (l : List ℕ) (n : ℕ) :
    (a :: b :: c :: l).getD (n + 3) 0 = l.getD n 0 := by
  simp [List.getD]

/-- Claim C2: `tetrahedron_volume` returns the scalar triple product of the
translated vectors `a = p0 - p3`, `b = p1 - p3`, `c = p2 - p3`, computed as
`(a.x*(b.y*c.z - b.z*c.y) + a.y*(b.z*c.x - b.x*c.z) + a.z*(b.x*c.y - b.y*c.x)) / 6`
(in the exact-arithmetic model the expression order does not affect the
value; the embedded definition keeps the source's expression structure). -/
theorem c2_tetrahedron_volume_triple_product (p0 p1 p2 p3 : Vec3) :
    tetrahedron_volume p0 p1 p2 p3 = tetrahedron_volume_spec p0 p1 p2 p3 := by
  rw [tetrahedron_volume_eq]
  simp only [tetrahedron_volume_spec, Vec3.sub, Vec3.dot, Vec3.cross]

/-- Claim C4: `tetrahedron_volume` is unchanged when all four points are
translated by the same vector. -/
theorem c4_translation_invariance (p0 p1 p2 p3 t : Vec3) :
    tetrahedron_volume (p0.add t) (p1.add t) (p2.add t) (p3.add t) =
      tetrahedron_volume p0 p1 p2 p3 := by
  simp only [tetrahedron_volume_eq, Vec3.add]
  ring

/-- Claim C7: `calculate_volume` with a face count of zero returns exactly 0,
regardless of the vertex array's contents. -/
theorem c7_empty_face_list (num_vertices : ℕ) (vectors : List Vec3)
    (vector_indices : List ℕ) :
    calculate_volume num_vertices vectors 0 vector_indices = 0 :=
  rfl

/-- Claim C9: the result of `calculate_volume` does not depend on its
`num_vertices` argument: two calls agreeing on the vertex array, the face
count and the index list return identical volumes. -/
theorem c9_num_vertices_unused (n1 n2 : ℕ) (vectors : List Vec3)
    (num_trfaces : ℕ) (vector_indices : List ℕ) :
    calculate_volume n1 vectors num_trfaces vector_indices =
      calculate_volume n2 vectors num_trfaces vector_indices :=
  rfl

/-- Shifting the face index by one skips the first three flat indices. -/
theorem face_term_cons (vertices : List Vec3) (i j k : ℕ) (tail : List ℕ) (n : ℕ) :
    face_term vertices (i :: j :: k :: tail) (n + 1) = face_term vertices tail n := by
  simp only [face_term]
  have h0 : (n + 1) * 3 = n * 3 + 3 := by ring
  rw [h0]
  have h1 : n * 3 + 3 + 1 = n * 3 + 1 + 3 := by omega
  have h2 : n * 3 + 3 + 2 = n * 3 + 2 + 3 := by omega
  rw [h1, h2, getD_cons_three, getD_cons_three, getD_cons_three]

/-- The mapped face terms over the flattened index list sum to the
specification-level volume. -/
theorem range_map_face_term (vertices : List Vec3) (faces : List (ℕ × ℕ × ℕ)) :
    ((List.range faces.length).map (face_term vertices (flattenFaces faces))).sum =
      spec_volume vertices faces := by
  induction faces with
  | nil => simp [spec_volume]
  | cons f rest ih =>
    obtain ⟨i, j, k⟩ := f
    have hcomp : (face_term vertices (i :: j :: k :: flattenFaces rest)) ∘ Nat.succ
        = face_term vertices (flattenFaces rest) := by
      funext n
      exact face_term_cons vertices i j k (flattenFaces rest) n
    simp only [flattenFaces, List.length_cons, List.range_succ_eq_map, List.map_cons,
      List.map_map, List.sum_cons, hcomp, ih, spec_volume]
    simp [face_term]

/-- Claim C1: for every vertex array and face list, `calculate_volume`
returns the value obtained by starting a total at 0 and, for each face
`(i, j, k)` in list order, adding `tetrahedron_volume` of
`vertices[i], vertices[j], vertices[k], vertices[0]` — the fourth point
always being the vertex array's first element. -/
theorem c1_calculate_volume_face_sum (num_vertices : ℕ) (vertices : List Vec3)
    (faces : List (ℕ × ℕ × ℕ)) :
    calculate_volume num_vertices vertices faces.length (flattenFaces faces) =
      spec_volume vertices faces := by
  simp only [calculate_volume]
  rw [foldl_add_eq_sum (face_term vertices (flattenFaces faces)), zero_add]
  exact range_map_face_term vertices faces

/-- The vertex array of the program's pyramid test (lines 160-165). -/
def pyramid_vertices : List Vec3 :=
  [⟨0, 0, 0⟩, ⟨1, 0, 0⟩, ⟨0, 1, 0⟩, ⟨1, 1, 1⟩]

/-- The flat face-index array of the program's pyramid test (lines 167-172). -/
def pyramid_indices : List ℕ :=
  [1, 0, 2,
   1, 3, 0,
   2, 3, 0,
   1, 2, 3]

/-- Claim C3: on the pyramid test input (4 vertices, 4 faces),
`calculate_volume` returns exactly 1/6, as the program's own
`test_pyramid` asserts. -/
theorem c3_pyramid_volume :
    calculate_volume 4 pyramid_vertices 4 pyramid_indices = 1 / 6 := by
  have h : calculate_volume 4 pyramid_vertices 4 pyramid_indices =
      0 + tetrahedron_volume ⟨1, 0, 0⟩ ⟨0, 0, 0⟩ ⟨0, 1, 0⟩ ⟨0, 0, 0⟩
        + tetrahedron_volume ⟨1, 0, 0⟩ ⟨1, 1, 1⟩ ⟨0, 0, 0⟩ ⟨0, 0, 0⟩
        + tetrahedron_volume ⟨0, 1, 0⟩ ⟨1, 1, 1⟩ ⟨0, 0, 0⟩ ⟨0, 0, 0⟩
        + tetrahedron_volume ⟨1, 0, 0⟩ ⟨0, 1, 0⟩ ⟨1, 1, 1⟩ ⟨0, 0, 0⟩ := rfl
  rw [h]
  simp only [tetrahedron_volume_eq]
  norm_num

/-- Claim C5: for every non-degenerate tetrahedron, swapping any two of the
first three argument points of `tetrahedron_volume` negates the result
while preserving its magnitude. -/
theorem c5_swap_negates (p0 p1 p2 p3 : Vec3)
    (h : tetrahedron_volume p0 p1 p2 p3 ≠ 0) :
    (tetrahedron_volume p1 p0 p2 p3 = -(tetrahedron_volume p0 p1 p2 p3) ∧
      |tetrahedron_volume p1 p0 p2 p3| = |tetrahedron_volume p0 p1 p2 p3|) ∧
    (tetrahedron_volume p0 p2 p1 p3 = -(tetrahedron_volume p0 p1 p2 p3) ∧
      |tetrahedron_volume p0 p2 p1 p3| = |tetrahedron_volume p0 p1 p2 p3|) ∧
    (tetrahedron_volume p2 p1 p0 p3 = -(tetrahedron_volume p0 p1 p2 p3) ∧
      |tetrahedron_volume p2 p1 p0 p3| = |tetrahedron_volume p0 p1 p2 p3|) := by
  have e01 : tetrahedron_volume p1 p0 p2 p3 = -(tetrahedron_volume p0 p1 p2 p3) := by
    simp only [tetrahedron_volume_eq]; ring
  have e12 : tetrahedron_volume p0 p2 p1 p3 = -(tetrahedron_volume p0 p1 p2 p3) := by
    simp only [tetrahedron_volume_eq]; ring
  have e02 : tetrahedron_volume p2 p1 p0 p3 = -(tetrahedron_volume p0 p1 p2 p3) := by
    simp only [tetrahedron_volume_eq]; ring
  exact ⟨⟨e01, by rw [e01, abs_neg]⟩, ⟨e12, by rw [e12, abs_neg]⟩,
    e02, by rw [e02, abs_neg]⟩

/-- Witness for claim C5: a concrete non-degenerate tetrahedron on which the
swap of the first two points negates the volume. -/
theorem c5_swap_negates_witness :
    tetrahedron_volume ⟨0, 0, 0⟩ ⟨1, 0, 0⟩ ⟨0, 1, 0⟩ ⟨0, 0, 1⟩ ≠ 0 ∧
      tetrahedron_volume ⟨1, 0, 0⟩ ⟨0, 0, 0⟩ ⟨0, 1, 0⟩ ⟨0, 0, 1⟩ =
        -(tetrahedron_volume ⟨0, 0, 0⟩ ⟨1, 0, 0⟩ ⟨0, 1, 0⟩ ⟨0, 0, 1⟩) :=
  ⟨by rw [tetrahedron_volume_eq]; norm_num,
    (c5_swap_negates ⟨0, 0, 0⟩ ⟨1, 0, 0⟩ ⟨0, 1, 0⟩ ⟨0, 0, 1⟩
      (by rw [tetrahedron_volume_eq]; norm_num)).1.1⟩

/-- The vertex array of the program's slanted-parallelepiped test
(lines 242-251). -/
def slanted_vertices : List Vec3 :=
  [⟨0, 0, 0⟩, ⟨4, 0, 0⟩, ⟨4, 2, 0⟩, ⟨0, 2, 0⟩,
   ⟨0, 1, 2⟩, ⟨4, 1, 2⟩, ⟨4, 3, 2⟩, ⟨0, 3, 2⟩]

/-- The vertex array of the program's unsheared 4x2x2 parallelepiped test
(lines 219-228). -/
def box_vertices : List Vec3 :=
  [⟨0, 0, 0⟩, ⟨4, 0, 0⟩, ⟨4, 2, 0⟩, ⟨0, 2, 0⟩,
   ⟨0, 0, 2⟩, ⟨4, 0, 2⟩, ⟨4, 2, 2⟩, ⟨0, 2, 2⟩]

/-- Claim C6: on the sheared parallelepiped vertices with the fixed
12-triangle hexahedron face table, `calculate_volume_qfhexahedron` returns
exactly 16, the same volume as the unsheared 4x2x2 box (shear
invariance). -/
theorem c6_slanted_parallelepiped_volume :
    calculate_volume_qfhexahedron slanted_vertices = 16 ∧
      calculate_volume_qfhexahedron box_vertices = 16 := by
  constructor
  · have h : calculate_volume_qfhexahedron slanted_vertices =
        0 + tetrahedron_volume ⟨0, 0, 0⟩ ⟨4, 2, 0⟩ ⟨4, 0, 0⟩ ⟨0, 0, 0⟩
          + tetrahedron_volume ⟨0, 0, 0⟩ ⟨0, 2, 0⟩ ⟨4, 2, 0⟩ ⟨0, 0, 0⟩
          + tetrahedron_volume ⟨0, 1, 2⟩ ⟨4, 1, 2⟩ ⟨4, 3, 2⟩ ⟨0, 0, 0⟩
          + tetrahedron_volume ⟨0, 1, 2⟩ ⟨4, 3, 2⟩ ⟨0, 3, 2⟩ ⟨0, 0, 0⟩
          + tetrahedron_volume ⟨0, 0, 0⟩ ⟨4, 1, 2⟩ ⟨0, 1, 2⟩ ⟨0, 0, 0⟩
          + tetrahedron_volume ⟨0, 0, 0⟩ ⟨4, 0, 0⟩ ⟨4, 1, 2⟩ ⟨0, 0, 0⟩
          + tetrahedron_volume ⟨4, 0, 0⟩ ⟨4, 3, 2⟩ ⟨4, 1, 2⟩ ⟨0, 0, 0⟩
          + tetrahedron_volume ⟨4, 0, 0⟩ ⟨4, 2, 0⟩ ⟨4, 3, 2⟩ ⟨0, 0, 0⟩
          + tetrahedron_volume ⟨0, 2, 0⟩ ⟨4, 3, 2⟩ ⟨4, 2, 0⟩ ⟨0, 0, 0⟩
          + tetrahedron_volume ⟨0, 2, 0⟩ ⟨0, 3, 2⟩ ⟨4, 3, 2⟩ ⟨0, 0, 0⟩
          + tetrahedron_volume ⟨0, 0, 0⟩ ⟨0, 3, 2⟩ ⟨0, 2, 0⟩ ⟨0, 0, 0⟩
          + tetrahedron_volume ⟨0, 0, 0⟩ ⟨0, 1, 2⟩ ⟨0, 3, 2⟩ ⟨0, 0, 0⟩ := rfl
    rw [h]
    simp only [tetrahedron_volume_eq]
    norm_num
  · have h : calculate_volume_qfhexahedron box_vertices =
        0 + tetrahedron_volume ⟨0, 0, 0⟩ ⟨4, 2, 0⟩ ⟨4, 0, 0⟩ ⟨0, 0, 0⟩
          + tetrahedron_volume ⟨0, 0, 0⟩ ⟨0, 2, 0⟩ ⟨4, 2, 0⟩ ⟨0, 0, 0⟩
          + tetrahedron_volume ⟨0, 0, 2⟩ ⟨4, 0, 2⟩ ⟨4, 2, 2⟩ ⟨0, 0, 0⟩
          + tetrahedron_volume ⟨0, 0, 2⟩ ⟨4, 2, 2⟩ ⟨0, 2, 2⟩ ⟨0, 0, 0⟩
          + tetrahedron_volume ⟨0, 0, 0⟩ ⟨4, 0, 2⟩ ⟨0, 0, 2⟩ ⟨0, 0, 0⟩
          + tetrahedron_volume ⟨0, 0, 0⟩ ⟨4, 0, 0⟩ ⟨4, 0, 2⟩ ⟨0, 0, 0⟩
          + tetrahedron_volume ⟨4, 0, 0⟩ ⟨4, 2, 2⟩ ⟨4, 0, 2⟩ ⟨0, 0, 0⟩
          + tetrahedron_volume ⟨4, 0, 0⟩ ⟨4, 2, 0⟩ ⟨4, 2, 2⟩ ⟨0, 0, 0⟩
          + tetrahedron_volume ⟨0, 2, 0⟩ ⟨4, 2, 2⟩ ⟨4, 2, 0⟩ ⟨0, 0, 0⟩
          + tetrahedron_volume ⟨0, 2, 0⟩ ⟨0, 2, 2⟩ ⟨4, 2, 2⟩ ⟨0, 0, 0⟩
          + tetrahedron_volume ⟨0, 0, 0⟩ ⟨0, 2, 2⟩ ⟨0, 2, 0⟩ ⟨0, 0, 0⟩
          + tetrahedron_volume ⟨0, 0, 0⟩ ⟨0, 0, 2⟩ ⟨0, 2, 2⟩ ⟨0, 0, 0⟩ := rfl
    rw [h]
    simp only [tetrahedron_volume_eq]
    norm_num

/-- Claim C8: `tetrahedron_volume` is deterministic: two invocations on
identical four-point inputs return identical results. -/
theorem c8_deterministic (p0 p1 p2 p3 q0 q1 q2 q3 : Vec3)
    (h0 : p0 = q0) (h1 : p1 = q1) (h2 : p2 = q2) (h3 : p3 = q3) :
    tetrahedron_volume p0 p1 p2 p3 = tetrahedron_volume q0 q1 q2 q3 := by
  rw [h0, h1, h2, h3]

/-- Witness for claim C8: determinism instantiated at a concrete
tetrahedron. -/
theorem c8_deterministic_witness :
    tetrahedron_volume ⟨0, 0, 0⟩ ⟨1, 0, 0⟩ ⟨0, 1, 0⟩ ⟨0, 0, 1⟩ =
      tetrahedron_volume ⟨0, 0, 0⟩ ⟨1, 0, 0⟩ ⟨0, 1, 0⟩ ⟨0, 0, 1⟩ :=
  c8_deterministic ⟨0, 0, 0⟩ ⟨1, 0, 0⟩ ⟨0, 1, 0⟩ ⟨0, 0, 1⟩
    ⟨0, 0, 0⟩ ⟨1, 0, 0⟩ ⟨0, 1, 0⟩ ⟨0, 0, 1⟩ rfl rfl rfl rfl

/-- Claim C10: any face whose index triple contains index 0 contributes a
value equal to exactly 0 to the total of `calculate_volume`, because one of
the three translated vectors in `tetrahedron_volume` is then the exact zero
vector. -/
theorem c10_reference_index_zero_contribution (vertices : List Vec3) (i j k : ℕ)
    (h : i = 0 ∨ j = 0 ∨ k = 0) :
    tetrahedron_volume (vertices.getD i zeroVec) (vertices.getD j zeroVec)
        (vertices.getD k zeroVec) (vertices.getD 0 zeroVec) = 0 ∧
      ∀ num_vertices : ℕ, calculate_volume num_vertices vertices 1 [i, j, k] = 0 := by
  have hbase : tetrahedron_volume (vertices.getD i zeroVec) (vertices.getD j zeroVec)
      (vertices.getD k zeroVec) (vertices.getD 0 zeroVec) = 0 := by
    rcases h with h | h | h <;> subst h <;> rw [tetrahedron_volume_eq] <;> ring
  refine ⟨hbase, fun n => ?_⟩
  have h1 : calculate_volume n vertices 1 [i, j, k] =
      0 + tetrahedron_volume (vertices.getD i zeroVec) (vertices.getD j zeroVec)
        (vertices.getD k zeroVec) (vertices.getD 0 zeroVec) := rfl
  rw [h1, hbase, add_zero]

/-- Witness for claim C10: face `(1, 0, 2)` of the pyramid test contains
index 0 and contributes exactly 0. -/
theorem c10_reference_index_zero_witness :
    ((1 : ℕ) = 0 ∨ (0 : ℕ) = 0 ∨ (2 : ℕ) = 0) ∧
      tetrahedron_volume (pyramid_vertices.getD 1 zeroVec) (pyramid_vertices.getD 0 zeroVec)
        (pyramid_vertices.getD 2 zeroVec) (pyramid_vertices.getD 0 zeroVec) = 0 :=
  ⟨Or.inr (Or.inl rfl),
    (c10_reference_index_zero_contribution pyramid_vertices 1 0 2 (Or.inr (Or.inl rfl))).1⟩
